import Mathlib

/-!
Verification development for the `deploy-lambdas` repository.

The repository contains two AWS Lambda handlers that update a container
image inside an ECS task definition:

* variant 1 (`ecs-task-update.js` module `ecs-task-update`): locates the
  task definition through a service lookup and always updates the service;
* variant 2 (module `ecs-task-container-update`): names the task family
  directly and updates the service only when one was supplied.

The JavaScript is embedded shallowly: events are records of optional
string fields (a missing field is `none`, matching JS `undefined`),
JS truthiness of a string value is `truthy` (empty string is falsy),
the `DeployParams` constructors become `Except`-returning functions
(`throw` becomes `Except.error`), and the promise chains become pure
functions that, given an environment of ECS API responses, return the
ordered list of ECS requests issued plus the value delivered to the
Lambda callback.
-/

/-- A container definition inside a task definition: a `name`, an `image`,
and arbitrary further properties (`extra`) that the code never touches. -/
structure Container where
  name : String
  image : String
  extra : List (String × String) := []
deriving DecidableEq, Repr, Inhabited

/-- Embeds `containerTransformer` (identical in both source variants):
returns the function mapped over the container list, replacing `image`
by `newImage` exactly on containers whose `name` equals `toMatch`. -/
def containerTransformer (toMatch newImage : String) : Container → Container :=
  fun container =>
    if container.name == toMatch then { container with image := newImage }
    else container

/-- A task definition as returned by `describeTaskDefinition`.  Besides the
four fields the code copies (`family`, `volumes`, `taskRoleArn`,
`containerDefinitions`) it carries further revision-specific metadata
(`taskDefinitionArn`, `revision`, `status`, `networkMode`) that the code
drops when registering the new revision. -/
structure TaskDef where
  family : String
  volumes : List String
  taskRoleArn : String
  containerDefinitions : List Container
  taskDefinitionArn : String := ""
  revision : Nat := 0
  status : String := ""
  networkMode : String := ""
deriving DecidableEq, Repr, Inhabited

/-- One entry of the `services` array of a `describeServices` response;
the code only reads its `taskDefinition` reference. -/
structure ServiceDesc where
  taskDefinition : String
  extra : List (String × String) := []
deriving DecidableEq, Repr, Inhabited

/-- Response payload of `ecs#describeServices`. -/
structure DescribeServicesResp where
  services : List ServiceDesc
deriving DecidableEq, Repr, Inhabited

/-- Response payload of `ecs#describeTaskDefinition`. -/
structure DescribeTaskResp where
  taskDefinition : TaskDef
deriving DecidableEq, Repr, Inhabited

/-- Request payload of `ecs#registerTaskDefinition` as built by
`updateTask`: exactly these four fields, nothing else. -/
structure RegisterTaskReq where
  family : String
  volumes : List String
  taskRoleArn : String
  containerDefinitions : List Container
deriving DecidableEq, Repr, Inhabited

/-- Response payload of `ecs#registerTaskDefinition`. -/
structure RegisterResp where
  taskDefinition : TaskDef
deriving DecidableEq, Repr, Inhabited

/-- Response payload of `ecs#updateService` (opaque to the code). -/
structure UpdateServiceResp where
  payload : String := ""
deriving DecidableEq, Repr, Inhabited

/-- An outgoing ECS API request, used to record the trace of external
calls a handler invocation performs.  `updateService` carries the
`service` value as an `Option` because variant 2 stores the raw
(possibly absent) event field. -/
inductive ECSRequest where
  | describeServices (cluster : String) (services : List String)
  | describeTaskDefinition (taskDefinition : String)
  | registerTaskDefinition (req : RegisterTaskReq)
  | updateService (cluster : String) (service : Option String)
      (taskDefinition : String)
deriving DecidableEq, Repr

/-- Whether a request is an `updateService` call. -/
def ECSRequest.isUpdateService : ECSRequest → Bool
  | .updateService _ _ _ => true
  | _ => false

/-- Whether a request is a `registerTaskDefinition` call. -/
def ECSRequest.isRegisterTaskDefinition : ECSRequest → Bool
  | .registerTaskDefinition _ => true
  | _ => false

/-- The external ECS API: for each operation, the response the service
would return to a given request. -/
structure Env where
  describeServices : String → List String → DescribeServicesResp
  describeTaskDefinition : String → DescribeTaskResp
  registerTaskDefinition : RegisterTaskReq → RegisterResp
  updateService : String → Option String → String → UpdateServiceResp

/-- The error value handed to the Lambda callback: either the validation
error list thrown by the `DeployParams` constructor, or the `TypeError`
raised when `result.services[0]` is accessed on an empty array. -/
inductive CallbackError where
  | validation (errors : List String)
  | typeError
deriving DecidableEq, Repr

/-- An incoming Lambda event.  Each field the two handlers ever read is
an optional string; `none` models an absent property. -/
structure Event where
  cluster : Option String := none
  service : Option String := none
  taskDefinition : Option String := none
  taskFamily : Option String := none
  containerName : Option String := none
  imageBase : Option String := none
  imageTag : Option String := none
deriving DecidableEq, Repr, Inhabited

/-- Dynamic property access `event[it]`, as used by the validation loop. -/
def Event.get (e : Event) : String → Option String
  | "cluster" => e.cluster
  | "service" => e.service
  | "taskDefinition" => e.taskDefinition
  | "taskFamily" => e.taskFamily
  | "containerName" => e.containerName
  | "imageBase" => e.imageBase
  | "imageTag" => e.imageTag
  | _ => none

@[simp] theorem Event.get_cluster (e : Event) : e.get "cluster" = e.cluster := rfl

@[simp] theorem Event.get_service (e : Event) : e.get "service" = e.service := rfl

@[simp] theorem Event.get_taskDefinition (e : Event) :
    e.get "taskDefinition" = e.taskDefinition := rfl

@[simp] theorem Event.get_taskFamily (e : Event) :
    e.get "taskFamily" = e.taskFamily := rfl

@[simp] theorem Event.get_containerName (e : Event) :
    e.get "containerName" = e.containerName := rfl

@[simp] theorem Event.get_imageBase (e : Event) :
    e.get "imageBase" = e.imageBase := rfl

@[simp] theorem Event.get_imageTag (e : Event) :
    e.get "imageTag" = e.imageTag := rfl

/-- JS truthiness of an optional string value: absent and `""` are falsy. -/
def truthy : Option String → Bool
  | none => false
  | some s => !(s == "")

/-- JS `v || d` for an optional string `v`: the value when truthy,
otherwise the default. -/
def orDefault (v : Option String) (d : String) : String :=
  match v with
  | none => d
  | some s => if s == "" then d else s

/-- Embeds `updateTask` (identical in both source variants) up to the
point where the request is handed to `ecs.registerTaskDefinition`: from
the `describeTaskDefinition` result it builds the register request with
exactly `family`, `volumes`, `taskRoleArn` copied from the fetched task
and the container list rewritten by `containerTransformer`. -/
def updateTask (containerName image : String) (result : DescribeTaskResp) :
    RegisterTaskReq :=
  let task := result.taskDefinition
  { family := task.family
    volumes := task.volumes
    taskRoleArn := task.taskRoleArn
    containerDefinitions :=
      task.containerDefinitions.map (containerTransformer containerName image) }

namespace TaskUpdate

/-- Required event fields of variant 1 (`ecs-task-update.js`). -/
def requiredParams : List String :=
  ["service", "taskDefinition", "containerName", "imageBase"]

/-- The validated parameter object of variant 1. -/
structure DeployParams where
  cluster : String
  service : String
  taskDefinition : String
  containerName : String
  imageBase : String
  imageTag : String
  image : String
deriving DecidableEq, Repr, Inhabited

/-- Embeds the variant-1 `DeployParams` constructor: maps each required
key to `null` or a message, filters out the nulls, throws the list when
non-empty, otherwise assigns the fields with their defaults. -/
def mkDeployParams (event : Event) : Except (List String) DeployParams :=
  let errors := (requiredParams.map
      (fun it => if truthy (event.get it) then none
                 else some (it ++ " is required."))).filterMap id
  if errors.length > 0 then Except.error errors
  else Except.ok
    { cluster := orDefault event.cluster "default"
      service := (event.service).getD ""
      taskDefinition := (event.taskDefinition).getD ""
      containerName := (event.containerName).getD ""
      imageBase := (event.imageBase).getD ""
      imageTag := orDefault event.imageTag "latest"
      image := (event.imageBase).getD "" ++ ":" ++ orDefault event.imageTag "latest" }

/-- Embeds the variant-1 promise chain `describeService → describeTask →
updateTask → updateService`: returns the ordered trace of ECS requests
issued and the callback outcome.  When the `describeServices` response
has an empty `services` array, `describeTask` crashes on
`result.services[0].taskDefinition` (a `TypeError`), the chain rejects,
and no further request is issued. -/
def flow (p : DeployParams) (env : Env) :
    List ECSRequest × Except CallbackError UpdateServiceResp :=
  let req1 := ECSRequest.describeServices p.cluster [p.service]
  match (env.describeServices p.cluster [p.service]).services with
  | [] => ([req1], Except.error CallbackError.typeError)
  | svc :: _ =>
    let regReq := updateTask p.containerName p.image
        (env.describeTaskDefinition svc.taskDefinition)
    let newArn := (env.registerTaskDefinition regReq).taskDefinition.taskDefinitionArn
    ([req1,
      ECSRequest.describeTaskDefinition svc.taskDefinition,
      ECSRequest.registerTaskDefinition regReq,
      ECSRequest.updateService p.cluster (some p.service) newArn],
     Except.ok (env.updateService p.cluster (some p.service) newArn))

/-- Embeds the variant-1 `exports.handler`: constructs the
`DeployParams` (delivering the thrown error list to the callback on
failure) and runs the promise chain. -/
def handler (event : Event) (env : Env) :
    List ECSRequest × Except CallbackError UpdateServiceResp :=
  match mkDeployParams event with
  | Except.error e => ([], Except.error (CallbackError.validation e))
  | Except.ok p => flow p env

end TaskUpdate

namespace ContainerUpdate

/-- Required event fields of variant 2 (`ecs-task-container-update`). -/
def requiredParams : List String :=
  ["taskFamily", "containerName", "imageBase"]

/-- The validated parameter object of variant 2; `service` keeps the raw
optional event value. -/
structure DeployParams where
  imageBase : String
  imageTag : String
  image : String
  taskFamily : String
  containerName : String
  cluster : String
  service : Option String
deriving DecidableEq, Repr, Inhabited

/-- Embeds the variant-2 `DeployParams` constructor: the same
required-field collection, then the cross-field rule throwing
`"service is required when cluster is specified"` when `cluster` is
truthy but `service` is not. -/
def mkDeployParams (event : Event) : Except (List String) DeployParams :=
  let errors := (requiredParams.map
      (fun it => if truthy (event.get it) then none
                 else some (it ++ " is required."))).filterMap id
  if errors.length > 0 then Except.error errors
  else if truthy event.cluster && !(truthy event.service) then
    Except.error ["service is required when cluster is specified"]
  else Except.ok
    { imageBase := (event.imageBase).getD ""
      imageTag := orDefault event.imageTag "latest"
      image := (event.imageBase).getD "" ++ ":" ++ orDefault event.imageTag "latest"
      taskFamily := (event.taskFamily).getD ""
      containerName := (event.containerName).getD ""
      cluster := orDefault event.cluster "default"
      service := event.service }

/-- The value a variant-2 invocation delivers to the callback on
success: the register response when only the task was updated, the
update-service response otherwise. -/
inductive FlowResult where
  | registered (r : RegisterResp)
  | updated (u : UpdateServiceResp)
deriving DecidableEq, Repr

/-- Embeds the variant-2 `buildPromise`: `describeTask` then
`updateTask`, extended with `updateService` exactly when `p.service` is
truthy (`!(p.service) ? taskUpdate : taskUpdate.then(updateService)`). -/
def buildPromise (p : DeployParams) (env : Env) :
    List ECSRequest × FlowResult :=
  let regReq := updateTask p.containerName p.image
      (env.describeTaskDefinition p.taskFamily)
  let regResp := env.registerTaskDefinition regReq
  let taskTrace := [ECSRequest.describeTaskDefinition p.taskFamily,
                    ECSRequest.registerTaskDefinition regReq]
  if !(truthy p.service) then (taskTrace, FlowResult.registered regResp)
  else
    let newArn := regResp.taskDefinition.taskDefinitionArn
    (taskTrace ++ [ECSRequest.updateService p.cluster p.service newArn],
     FlowResult.updated (env.updateService p.cluster p.service newArn))

/-- Embeds the variant-2 `exports.handler`. -/
def handler (event : Event) (env : Env) :
    List ECSRequest × Except (List String) FlowResult :=
  match mkDeployParams event with
  | Except.error e => ([], Except.error e)
  | Except.ok p =>
    let r := buildPromise p env
    (r.1, Except.ok r.2)

end ContainerUpdate

/-! ### Helper lemmas -/

/-- Mapping `containerTransformer` over a list with no matching name is
the identity. -/
theorem map_containerTransformer_of_no_match (toMatch newImage : String)
    (cs : List Container) (h : ∀ c ∈ cs, c.name ≠ toMatch) :
    cs.map (containerTransformer toMatch newImage) = cs := by
  induction cs with
  | nil => rfl
  | cons a t ih =>
    have ha : a.name ≠ toMatch := h a (List.mem_cons_self a t)
    have ht : ∀ c ∈ t, c.name ≠ toMatch := fun c hc => h c (List.mem_cons_of_mem a hc)
    simp [containerTransformer, ha, ih ht]

/-- The error-collection step of both `DeployParams` constructors
(`map` to `null`-or-message then `filter`) equals filtering the missing
keys and rendering each as a message. -/
theorem errors_map_filterMap (f : String → Bool) (l : List String) :
    (l.map (fun it => if f it then none else some (it ++ " is required."))).filterMap id
      = (l.filter (fun it => !(f it))).map (fun it => it ++ " is required.") := by
  induction l with
  | nil => rfl
  | cons a t ih =>
    by_cases h : f a <;> simp [h, ih]

/-! #### Sample data for witnesses -/

/-- A sample fetched task definition. -/
def sampleTask : TaskDef :=
  { family := "app"
    volumes := ["vol1"]
    taskRoleArn := "role-arn"
    containerDefinitions := [{ name := "web", image := "repo/app:v1" },
                             { name := "sidecar", image := "side:1" }]
    taskDefinitionArn := "arn:aws:ecs:task-definition/app:3"
    revision := 3
    status := "ACTIVE"
    networkMode := "bridge" }

/-- A sample newly registered task definition. -/
def sampleNewTask : TaskDef :=
  { sampleTask with taskDefinitionArn := "arn:aws:ecs:task-definition/app:4"
                    revision := 4 }

/-- A sample ECS environment: one service pointing at `sampleTask`,
registration yielding `sampleNewTask`. -/
def sampleEnv : Env :=
  { describeServices := fun _ _ => ⟨[⟨"arn:aws:ecs:task-definition/app:3", []⟩]⟩
    describeTaskDefinition := fun _ => ⟨sampleTask⟩
    registerTaskDefinition := fun _ => ⟨sampleNewTask⟩
    updateService := fun _ _ _ => ⟨"updated"⟩ }

/-- A sample ECS environment whose `describeServices` returns no
services. -/
def emptyServicesEnv : Env :=
  { sampleEnv with describeServices := fun _ _ => ⟨[]⟩ }

/-! ### Claims -/

/-- C1: for a container list with exactly one container named `toMatch`
(written as `pre ++ c :: post` with `c` the unique match), mapping
`containerTransformer` preserves the length and the order and changes
only that container, replacing its `image` with `newImage`. -/
theorem containerTransformer_unique_match (toMatch newImage : String)
    (pre post : List Container) (c : Container)
    (hc : c.name = toMatch)
    (hpre : ∀ a ∈ pre, a.name ≠ toMatch)
    (hpost : ∀ a ∈ post, a.name ≠ toMatch) :
    ((pre ++ c :: post).map (containerTransformer toMatch newImage)).length
        = (pre ++ c :: post).length ∧
    (pre ++ c :: post).map (containerTransformer toMatch newImage)
        = pre ++ { c with image := newImage } :: post := by
  refine ⟨List.length_map _ _, ?_⟩
  rw [List.map_append, List.map_cons,
      map_containerTransformer_of_no_match _ _ _ hpre,
      map_containerTransformer_of_no_match _ _ _ hpost]
  simp [containerTransformer, hc]

/-- A sample container list prefix with no container named `web`. -/
def preW : List Container := [⟨"a", "i1", []⟩]

/-- A sample container list suffix with no container named `web`. -/
def postW : List Container := [⟨"z", "i3", []⟩]

/-- The sample container named `web`. -/
def webW : Container := ⟨"web", "old", []⟩

/-- Witness for C1 at a concrete three-container list whose middle
container is the unique match. -/
theorem containerTransformer_unique_match_witness :
    ((preW ++ webW :: postW).map
        (containerTransformer "web" "repo/app:v2")).length
      = (preW ++ webW :: postW).length ∧
    (preW ++ webW :: postW).map (containerTransformer "web" "repo/app:v2")
      = preW ++ { webW with image := "repo/app:v2" } :: postW :=
  containerTransformer_unique_match "web" "repo/app:v2" preW postW webW
    (by decide) (by decide) (by decide)

/-- C6: when no container in the list is named `toMatch`, the container
rewrite returns the list unchanged (and, being a total function, raises
no error): a silent no-op. -/
theorem containerTransformer_no_match_noop (toMatch newImage : String)
    (cs : List Container) (h : ∀ c ∈ cs, c.name ≠ toMatch) :
    cs.map (containerTransformer toMatch newImage) = cs :=
  map_containerTransformer_of_no_match toMatch newImage cs h

/-- Witness for C6 at a concrete two-container list with no match. -/
theorem containerTransformer_no_match_noop_witness :
    ([⟨"a", "i1", []⟩, ⟨"b", "i2", []⟩] : List Container).map
        (containerTransformer "web" "repo/app:v2")
      = [⟨"a", "i1", []⟩, ⟨"b", "i2", []⟩] :=
  containerTransformer_no_match_noop "web" "repo/app:v2"
    [⟨"a", "i1", []⟩, ⟨"b", "i2", []⟩] (by decide)

/-- The error list of either constructor is non-empty as soon as one
required key is not truthy. -/
theorem mkErrors_pos (g : String → Bool) (L : List String)
    (h : ∃ k ∈ L, g k = false) :
    0 < ((L.map (fun it => if g it then none
        else some (it ++ " is required."))).filterMap id).length := by
  obtain ⟨k, hk, hgk⟩ := h
  rw [errors_map_filterMap]
  have hmem : k ∈ L.filter (fun it => !(g it)) :=
    List.mem_filter.mpr ⟨hk, by simp [hgk]⟩
  have hne : L.filter (fun it => !(g it)) ≠ [] := List.ne_nil_of_mem hmem
  simpa [List.length_pos] using hne

/-- C2: in both variants, every event accepted by validation yields
parameters whose `image` is `imageBase ++ ":" ++ imageTag`, with
`imageTag` defaulting to `"latest"` and `cluster` to `"default"` when
absent from the event. -/
theorem deployParams_image_composition (e1 e2 : Event)
    (p1 : TaskUpdate.DeployParams) (p2 : ContainerUpdate.DeployParams)
    (h1 : TaskUpdate.mkDeployParams e1 = Except.ok p1)
    (h2 : ContainerUpdate.mkDeployParams e2 = Except.ok p2) :
    (p1.image = p1.imageBase ++ ":" ++ p1.imageTag
      ∧ (e1.imageTag = none → p1.imageTag = "latest")
      ∧ (e1.cluster = none → p1.cluster = "default"))
    ∧ (p2.image = p2.imageBase ++ ":" ++ p2.imageTag
      ∧ (e2.imageTag = none → p2.imageTag = "latest")
      ∧ (e2.cluster = none → p2.cluster = "default")) := by
  constructor
  · simp only [TaskUpdate.mkDeployParams] at h1
    split at h1
    · exact absurd h1 (by simp)
    · rw [Except.ok.injEq] at h1
      subst h1
      refine ⟨rfl, ?_, ?_⟩ <;> intro hx <;> simp [orDefault, hx]
  · simp only [ContainerUpdate.mkDeployParams] at h2
    split at h2
    · exact absurd h2 (by simp)
    · split at h2
      · exact absurd h2 (by simp)
      · rw [Except.ok.injEq] at h2
        subst h2
        refine ⟨rfl, ?_, ?_⟩ <;> intro hx <;> simp [orDefault, hx]

/-- A sample valid variant-1 event leaving `cluster` and `imageTag` to
their defaults. -/
def e1W : Event :=
  { service := some "svc", taskDefinition := some "app:3",
    containerName := some "web", imageBase := some "repo/app" }

/-- The parameters variant 1 builds from `e1W`. -/
def p1W : TaskUpdate.DeployParams :=
  { cluster := "default", service := "svc", taskDefinition := "app:3",
    containerName := "web", imageBase := "repo/app", imageTag := "latest",
    image := "repo/app:latest" }

/-- A sample valid variant-2 event with every optional field supplied. -/
def e2W : Event :=
  { cluster := some "c1", service := some "svc", taskFamily := some "app",
    containerName := some "web", imageBase := some "repo/app",
    imageTag := some "v2" }

/-- The parameters variant 2 builds from `e2W`. -/
def p2W : ContainerUpdate.DeployParams :=
  { imageBase := "repo/app", imageTag := "v2", image := "repo/app:v2",
    taskFamily := "app", containerName := "web", cluster := "c1",
    service := some "svc" }

/-- Witness for C2 at `e1W` (defaults applied) and `e2W`. -/
theorem deployParams_image_composition_witness :
    (p1W.image = p1W.imageBase ++ ":" ++ p1W.imageTag
      ∧ (e1W.imageTag = none → p1W.imageTag = "latest")
      ∧ (e1W.cluster = none → p1W.cluster = "default"))
    ∧ (p2W.image = p2W.imageBase ++ ":" ++ p2W.imageTag
      ∧ (e2W.imageTag = none → p2W.imageTag = "latest")
      ∧ (e2W.cluster = none → p2W.cluster = "default")) :=
  deployParams_image_composition e1W e2W p1W p2W rfl rfl

/-- C3: in both variants, an event for which some required field is
missing or falsy is rejected with the full list of messages, one
`"<field> is required."` per missing required field in the fixed order
of `requiredParams`, and no parameter object is produced. -/
theorem validation_collects_all_missing (e1 e2 : Event)
    (h1 : ∃ k ∈ TaskUpdate.requiredParams, truthy (e1.get k) = false)
    (h2 : ∃ k ∈ ContainerUpdate.requiredParams, truthy (e2.get k) = false) :
    TaskUpdate.mkDeployParams e1
        = Except.error ((TaskUpdate.requiredParams.filter
            (fun k => !(truthy (e1.get k)))).map (fun k => k ++ " is required."))
    ∧ ContainerUpdate.mkDeployParams e2
        = Except.error ((ContainerUpdate.requiredParams.filter
            (fun k => !(truthy (e2.get k)))).map (fun k => k ++ " is required.")) := by
  constructor
  · have hpos := mkErrors_pos (fun k => truthy (e1.get k)) TaskUpdate.requiredParams h1
    simp only [TaskUpdate.mkDeployParams]
    rw [if_pos hpos, errors_map_filterMap]
  · have hpos := mkErrors_pos (fun k => truthy (e2.get k)) ContainerUpdate.requiredParams h2
    simp only [ContainerUpdate.mkDeployParams]
    rw [if_pos hpos, errors_map_filterMap]

/-- A variant-1 event missing three of the four required fields
(`containerName` is the only one supplied). -/
def e3aW : Event := { containerName := some "web" }

/-- A variant-2 event with a falsy `imageBase` and missing
`containerName`. -/
def e3bW : Event := { taskFamily := some "app", imageBase := some "" }

/-- Witness for C3: both variants report every missing field at once. -/
theorem validation_collects_all_missing_witness :
    TaskUpdate.mkDeployParams e3aW
        = Except.error ((TaskUpdate.requiredParams.filter
            (fun k => !(truthy (e3aW.get k)))).map (fun k => k ++ " is required."))
    ∧ ContainerUpdate.mkDeployParams e3bW
        = Except.error ((ContainerUpdate.requiredParams.filter
            (fun k => !(truthy (e3bW.get k)))).map (fun k => k ++ " is required.")) :=
  validation_collects_all_missing e3aW e3bW (by decide) (by decide)

/-- The variant-2 event of the C7 counterexample: `cluster` is set but
every required field is missing. -/
def e7cW : Event := { cluster := some "c1" }

/-- C7 counterexample: the event `{cluster: "c1"}` specifies `cluster`
but not `service`, yet validation rejects it with the three
missing-field messages only — the cluster/service-dependency message
does not appear, because the required-field check throws first. -/
theorem cluster_without_service_counterexample :
    ContainerUpdate.mkDeployParams e7cW
      = Except.error ["taskFamily is required.", "containerName is required.",
                      "imageBase is required."]
    ∧ (["taskFamily is required.", "containerName is required.",
        "imageBase is required."].contains
          "service is required when cluster is specified") = false :=
  ⟨rfl, by decide⟩

/-- C7 as amended: every variant-2 event whose required fields are all
truthy and whose `cluster` is truthy while `service` is not fails
validation with exactly the cluster/service-dependency error. -/
theorem cluster_without_service_dependency_error (event : Event)
    (hreq : ∀ k ∈ ContainerUpdate.requiredParams, truthy (event.get k) = true)
    (hcl : truthy event.cluster = true)
    (hsv : truthy event.service = false) :
    ContainerUpdate.mkDeployParams event
      = Except.error ["service is required when cluster is specified"] := by
  have h1 := hreq "taskFamily" (by decide)
  have h2 := hreq "containerName" (by decide)
  have h3 := hreq "imageBase" (by decide)
  simp only [Event.get_taskFamily, Event.get_containerName,
             Event.get_imageBase] at h1 h2 h3
  simp [ContainerUpdate.mkDeployParams, ContainerUpdate.requiredParams,
        h1, h2, h3, hcl, hsv]

/-- The event of the C7 amended witness: all required fields present,
`cluster` set, `service` absent. -/
def e7W : Event :=
  { cluster := some "c1", taskFamily := some "app",
    containerName := some "web", imageBase := some "repo/app" }

/-- Witness for the amended C7 at `e7W`. -/
theorem cluster_without_service_dependency_error_witness :
    ContainerUpdate.mkDeployParams e7W
      = Except.error ["service is required when cluster is specified"] :=
  cluster_without_service_dependency_error e7W (by decide) (by decide) (by decide)

/-- The variant-2 event of the C4 counterexample: valid, with a
`service` field present but holding the empty string. -/
def e4cW : Event :=
  { taskFamily := some "app", containerName := some "web",
    imageBase := some "repo/app", service := some "" }

/-- C4 counterexample: the event `e4cW` has a `service` field and passes
validation, yet the flow never invokes `updateService`, because the code
branches on JS truthiness of `p.service`, not on presence. -/
theorem emptyString_service_skips_updateService :
    e4cW.service = some ""
    ∧ ContainerUpdate.mkDeployParams e4cW
        = Except.ok { imageBase := "repo/app", imageTag := "latest",
                      image := "repo/app:latest", taskFamily := "app",
                      containerName := "web", cluster := "default",
                      service := some "" }
    ∧ ((ContainerUpdate.handler e4cW sampleEnv).1.any
          ECSRequest.isUpdateService) = false :=
  ⟨rfl, rfl, by decide⟩

/-- C4 as amended: for every valid variant-2 event, if the event's
`service` is not truthy (absent or empty) the flow performs exactly
describe-task-definition then register-task-definition and never invokes
update-service; if `service` is truthy, update-service is additionally
invoked after registration. -/
theorem variant2_updateService_iff_truthy_service (event : Event) (env : Env)
    (p : ContainerUpdate.DeployParams)
    (hp : ContainerUpdate.mkDeployParams event = Except.ok p) :
    (truthy event.service = false →
      (ContainerUpdate.handler event env).1 =
        [ECSRequest.describeTaskDefinition p.taskFamily,
         ECSRequest.registerTaskDefinition (updateTask p.containerName p.image
           (env.describeTaskDefinition p.taskFamily))]
      ∧ ((ContainerUpdate.handler event env).1.any
            ECSRequest.isUpdateService) = false)
    ∧ (truthy event.service = true →
      (ContainerUpdate.handler event env).1 =
        [ECSRequest.describeTaskDefinition p.taskFamily,
         ECSRequest.registerTaskDefinition (updateTask p.containerName p.image
           (env.describeTaskDefinition p.taskFamily)),
         ECSRequest.updateService p.cluster p.service
           ((env.registerTaskDefinition (updateTask p.containerName p.image
              (env.describeTaskDefinition p.taskFamily))).taskDefinition.taskDefinitionArn)]) := by
  have hps : p.service = event.service := by
    simp only [ContainerUpdate.mkDeployParams] at hp
    split at hp
    · exact absurd hp (by simp)
    · split at hp
      · exact absurd hp (by simp)
      · rw [Except.ok.injEq] at hp
        subst hp
        rfl
  have hh : (ContainerUpdate.handler event env).1
      = (ContainerUpdate.buildPromise p env).1 := by
    simp [ContainerUpdate.handler, hp]
  constructor
  · intro hsv
    rw [hh]
    simp [ContainerUpdate.buildPromise, hps, hsv, ECSRequest.isUpdateService]
  · intro hsv
    rw [hh]
    simp [ContainerUpdate.buildPromise, hps, hsv]

/-- The valid variant-2 event of the C4 witness, with a truthy service. -/
def e4W : Event :=
  { taskFamily := some "app", containerName := some "web",
    imageBase := some "repo/app", imageTag := some "v2",
    service := some "svc" }

/-- The parameters variant 2 builds from `e4W`. -/
def p4W : ContainerUpdate.DeployParams :=
  { imageBase := "repo/app", imageTag := "v2", image := "repo/app:v2",
    taskFamily := "app", containerName := "web", cluster := "default",
    service := some "svc" }

/-- Witness for the amended C4 at `e4W` (truthy-service branch). -/
theorem variant2_updateService_iff_truthy_service_witness :
    (ContainerUpdate.handler e4W sampleEnv).1 =
      [ECSRequest.describeTaskDefinition p4W.taskFamily,
       ECSRequest.registerTaskDefinition (updateTask p4W.containerName p4W.image
         (sampleEnv.describeTaskDefinition p4W.taskFamily)),
       ECSRequest.updateService p4W.cluster p4W.service
         ((sampleEnv.registerTaskDefinition (updateTask p4W.containerName p4W.image
            (sampleEnv.describeTaskDefinition p4W.taskFamily))).taskDefinition.taskDefinitionArn)] :=
  (variant2_updateService_iff_truthy_service e4W sampleEnv p4W rfl).2 (by decide)

/-- C8: the register request built from a fetched task definition
consists of exactly `family`, `volumes`, `taskRoleArn` copied unchanged
from the source task and the rewritten container list (the type
`RegisterTaskReq` has no further field); and it is independent of every
other field of the source task definition: two fetched tasks agreeing on
those four source fields yield the same request. -/
theorem registerTaskDefinition_exact_fields (cName img : String)
    (t1 t2 : TaskDef)
    (hf : t1.family = t2.family) (hv : t1.volumes = t2.volumes)
    (hr : t1.taskRoleArn = t2.taskRoleArn)
    (hc : t1.containerDefinitions = t2.containerDefinitions) :
    updateTask cName img ⟨t1⟩
      = { family := t1.family, volumes := t1.volumes,
          taskRoleArn := t1.taskRoleArn,
          containerDefinitions :=
            t1.containerDefinitions.map (containerTransformer cName img) }
    ∧ updateTask cName img ⟨t1⟩ = updateTask cName img ⟨t2⟩ := by
  refine ⟨rfl, ?_⟩
  simp [updateTask, hf, hv, hr, hc]

/-- `sampleTask` with different revision-specific metadata. -/
def t8W : TaskDef :=
  { sampleTask with taskDefinitionArn := "arn:other", revision := 9,
                    status := "INACTIVE", networkMode := "awsvpc" }

/-- Witness for C8 at `sampleTask` and `t8W`. -/
theorem registerTaskDefinition_exact_fields_witness :
    updateTask "web" "repo/app:v2" ⟨sampleTask⟩
      = { family := sampleTask.family, volumes := sampleTask.volumes,
          taskRoleArn := sampleTask.taskRoleArn,
          containerDefinitions :=
            sampleTask.containerDefinitions.map
              (containerTransformer "web" "repo/app:v2") }
    ∧ updateTask "web" "repo/app:v2" ⟨sampleTask⟩
        = updateTask "web" "repo/app:v2" ⟨t8W⟩ :=
  registerTaskDefinition_exact_fields "web" "repo/app:v2" sampleTask t8W
    rfl rfl rfl rfl

/-- C5: for every valid variant-1 event, when the describe-services
response lists at least one service the flow performs exactly
describe-services, describe-task-definition, register-task-definition,
update-service in that order; the task definition described is the one
referenced by the first returned service, the register request is built
from the described task, and the service is updated to the newly
registered task definition's ARN, which is also the callback value. -/
theorem variant1_four_calls_in_order (event : Event) (env : Env)
    (p : TaskUpdate.DeployParams) (svc : ServiceDesc) (rest : List ServiceDesc)
    (hp : TaskUpdate.mkDeployParams event = Except.ok p)
    (hs : (env.describeServices p.cluster [p.service]).services = svc :: rest) :
    TaskUpdate.handler event env =
      ([ECSRequest.describeServices p.cluster [p.service],
        ECSRequest.describeTaskDefinition svc.taskDefinition,
        ECSRequest.registerTaskDefinition (updateTask p.containerName p.image
          (env.describeTaskDefinition svc.taskDefinition)),
        ECSRequest.updateService p.cluster (some p.service)
          ((env.registerTaskDefinition (updateTask p.containerName p.image
             (env.describeTaskDefinition svc.taskDefinition))).taskDefinition.taskDefinitionArn)],
       Except.ok (env.updateService p.cluster (some p.service)
          ((env.registerTaskDefinition (updateTask p.containerName p.image
             (env.describeTaskDefinition svc.taskDefinition))).taskDefinition.taskDefinitionArn))) := by
  simp [TaskUpdate.handler, hp, TaskUpdate.flow, hs]

/-- The service entry returned by `sampleEnv`. -/
def svcW : ServiceDesc := ⟨"arn:aws:ecs:task-definition/app:3", []⟩

/-- Witness for C5 at `e1W` and `sampleEnv`. -/
theorem variant1_four_calls_in_order_witness :
    TaskUpdate.handler e1W sampleEnv =
      ([ECSRequest.describeServices p1W.cluster [p1W.service],
        ECSRequest.describeTaskDefinition svcW.taskDefinition,
        ECSRequest.registerTaskDefinition (updateTask p1W.containerName p1W.image
          (sampleEnv.describeTaskDefinition svcW.taskDefinition)),
        ECSRequest.updateService p1W.cluster (some p1W.service)
          ((sampleEnv.registerTaskDefinition (updateTask p1W.containerName p1W.image
             (sampleEnv.describeTaskDefinition svcW.taskDefinition))).taskDefinition.taskDefinitionArn)],
       Except.ok (sampleEnv.updateService p1W.cluster (some p1W.service)
          ((sampleEnv.registerTaskDefinition (updateTask p1W.containerName p1W.image
             (sampleEnv.describeTaskDefinition svcW.taskDefinition))).taskDefinition.taskDefinitionArn))) :=
  variant1_four_calls_in_order e1W sampleEnv p1W svcW [] rfl rfl

/-- C9: for every valid variant-1 event, when the describe-services
response contains no service the invocation aborts after the single
describe-services request — the callback receives the `TypeError` raised
by `result.services[0]`, and neither register-task-definition nor
update-service (nor describe-task-definition) is ever invoked. -/
theorem variant1_empty_services_aborts (event : Event) (env : Env)
    (p : TaskUpdate.DeployParams)
    (hp : TaskUpdate.mkDeployParams event = Except.ok p)
    (hs : (env.describeServices p.cluster [p.service]).services = []) :
    TaskUpdate.handler event env
      = ([ECSRequest.describeServices p.cluster [p.service]],
         Except.error CallbackError.typeError)
    ∧ ((TaskUpdate.handler event env).1.any
          ECSRequest.isRegisterTaskDefinition) = false
    ∧ ((TaskUpdate.handler event env).1.any
          ECSRequest.isUpdateService) = false := by
  have h : TaskUpdate.handler event env
      = ([ECSRequest.describeServices p.cluster [p.service]],
         Except.error CallbackError.typeError) := by
    simp [TaskUpdate.handler, hp, TaskUpdate.flow, hs]
  refine ⟨h, ?_, ?_⟩ <;> rw [h] <;>
    simp [ECSRequest.isRegisterTaskDefinition, ECSRequest.isUpdateService]

/-- Witness for C9 at `e1W` and the environment returning no services. -/
theorem variant1_empty_services_aborts_witness :
    TaskUpdate.handler e1W emptyServicesEnv
      = ([ECSRequest.describeServices p1W.cluster [p1W.service]],
         Except.error CallbackError.typeError)
    ∧ ((TaskUpdate.handler e1W emptyServicesEnv).1.any
          ECSRequest.isRegisterTaskDefinition) = false
    ∧ ((TaskUpdate.handler e1W emptyServicesEnv).1.any
          ECSRequest.isUpdateService) = false :=
  variant1_empty_services_aborts e1W emptyServicesEnv p1W rfl rfl

/-- The variant-1 parameters built from an accepted event, spelled out
field by field. -/
theorem mkDeployParams_ok_fields (e : Event) (p : TaskUpdate.DeployParams)
    (hp : TaskUpdate.mkDeployParams e = Except.ok p) :
    p = { cluster := orDefault e.cluster "default",
          service := e.service.getD "",
          taskDefinition := e.taskDefinition.getD "",
          containerName := e.containerName.getD "",
          imageBase := e.imageBase.getD "",
          imageTag := orDefault e.imageTag "latest",
          image := e.imageBase.getD "" ++ ":" ++ orDefault e.imageTag "latest" } := by
  simp only [TaskUpdate.mkDeployParams] at hp
  split at hp
  · exact absurd hp (by simp)
  · rw [Except.ok.injEq] at hp
    exact hp.symm

/-- The variant-1 promise chain reads only `cluster`, `service`,
`containerName` and `image` of its parameters. -/
theorem flow_depends_only_on_used_fields (p q : TaskUpdate.DeployParams)
    (env : Env)
    (h1 : p.cluster = q.cluster) (h2 : p.service = q.service)
    (h3 : p.containerName = q.containerName) (h4 : p.image = q.image) :
    TaskUpdate.flow p env = TaskUpdate.flow q env := by
  unfold TaskUpdate.flow
  rw [h1, h2, h3, h4]

/-- C10: the `taskDefinition` event field of variant 1 is required by
validation but never influences any external request: two accepted
events that agree on every other consumed field issue identical request
sequences, whatever their `taskDefinition` values. -/
theorem variant1_taskDefinition_noninterference (e1 e2 : Event) (env : Env)
    (p1 p2 : TaskUpdate.DeployParams)
    (hc : e1.cluster = e2.cluster) (hsv : e1.service = e2.service)
    (hcn : e1.containerName = e2.containerName)
    (hib : e1.imageBase = e2.imageBase) (hit : e1.imageTag = e2.imageTag)
    (hp1 : TaskUpdate.mkDeployParams e1 = Except.ok p1)
    (hp2 : TaskUpdate.mkDeployParams e2 = Except.ok p2) :
    (TaskUpdate.handler e1 env).1 = (TaskUpdate.handler e2 env).1 := by
  have h1 := mkDeployParams_ok_fields e1 p1 hp1
  have h2 := mkDeployParams_ok_fields e2 p2 hp2
  have hflow : TaskUpdate.flow p1 env = TaskUpdate.flow p2 env := by
    apply flow_depends_only_on_used_fields
    · rw [h1, h2]; simp [hc]
    · rw [h1, h2]; simp [hsv]
    · rw [h1, h2]; simp [hcn]
    · rw [h1, h2]; simp [hib, hit]
  simp [TaskUpdate.handler, hp1, hp2, hflow]

/-- `e1W` with a different (truthy) `taskDefinition` value. -/
def e10W : Event := { e1W with taskDefinition := some "other-task:7" }

/-- The parameters variant 1 builds from `e10W`. -/
def p10W : TaskUpdate.DeployParams :=
  { p1W with taskDefinition := "other-task:7" }

/-- Witness for C10: `e1W` and `e10W` differ only in `taskDefinition`
yet produce the same request trace. -/
theorem variant1_taskDefinition_noninterference_witness :
    (TaskUpdate.handler e1W sampleEnv).1
      = (TaskUpdate.handler e10W sampleEnv).1 :=
  variant1_taskDefinition_noninterference e1W e10W sampleEnv p1W p10W
    rfl rfl rfl rfl rfl rfl rfl
